import Mathlib

/-!
# Verification of the capdash telemetry decoder and command dispatcher

This development gives a shallow embedding, in Lean 4, of the MQTT message
handler and pump-command dispatcher of the capdash irrigation dashboard
(the `client.on('message')` chain, `publishPumpControl` and `controlPump`
of the main dashboard component, together with the `/api/pump` relay
route), and proves properties of the embedded definitions.

Modelling conventions:
* JavaScript numbers are modelled as `Option ℚ`: `some q` is an ordinary
  numeric value, `none` stands for `undefined` / `NaN` (the two runtime
  values that the dashboard can store into a numeric field when a payload
  field is missing; both render as "not a real number" and both are falsy).
* Regular-expression matches of the source are re-implemented as explicit
  leftmost-match scanners over `List Char`.
* `JSON.parse` is modelled by an executable recursive-descent parser
  `jsonParse` covering the JSON fragment the device telemetry uses
  (objects, arrays, strings without escapes beyond the common ones,
  decimal numbers, booleans, null).  Payloads whose array entries are not
  numbers would make the source compute NaN contamination inside a
  `setSensors` argument or throw inside `filter`/`reduce`; both end in the
  surrounding `catch` before any state update commits, and the model maps
  them to the same caught-error path.
-/

/-! ## Character and string helpers (JS regex / string primitives) -/

/-- The character `{` (written via its code so it never appears literally). -/
def braceChar : Char := Char.ofNat 123

/-- JS `\d`. -/
def isDigitCh (c : Char) : Bool := c.isDigit

/-- JS `\w` (word character): letters, digits, underscore. -/
def isWordCh (c : Char) : Bool := c.isAlphanum || c = '_'

/-- JS `\s` (whitespace). -/
def isWsCh (c : Char) : Bool := c.isWhitespace

/-- Numeric value of a digit string (the effect of JS `parseInt` on a
`\d+` capture). -/
def digitsVal (cs : List Char) : Nat :=
  cs.foldl (fun acc c => acc * 10 + (c.toNat - 48)) 0

/-- JS-style `pat.isPrefixOf s` check, spelled out so everything stays executable. -/
def prefixOfCh : List Char → List Char → Bool
  | [], _ => true
  | _ :: _, [] => false
  | p :: ps, s :: ss => p = s && prefixOfCh ps ss

/-- JS `String.prototype.includes`. -/
def containsSub (pat : List Char) : List Char → Bool
  | [] => prefixOfCh pat []
  | c :: rest => prefixOfCh pat (c :: rest) || containsSub pat rest

/-- JS `String.prototype.replace(pat, '')` with a string pattern:
remove the first occurrence of `pat`, if any. -/
def removeFirst (pat : List Char) : List Char → List Char
  | [] => []
  | c :: rest =>
    if prefixOfCh pat (c :: rest) then (c :: rest).drop pat.length
    else c :: removeFirst pat rest

/-- Maximal run of characters satisfying `p`, with the remaining suffix. -/
def takeRun (p : Char → Bool) : List Char → List Char × List Char
  | [] => ([], [])
  | c :: rest =>
    if p c then
      let (run, rem) := takeRun p rest
      (c :: run, rem)
    else ([], c :: rest)

/-- Leftmost-match scanner: try the at-position matcher `f` at every
position, returning the first success — the way a JS regex without an
anchor searches a string. -/
def scanFor {α : Type} (f : List Char → Option α) : List Char → Option α
  | [] => f []
  | c :: rest =>
    match f (c :: rest) with
    | some r => some r
    | none => scanFor f rest

/-- At-position matcher for `key(C+)` where `C` is a character class:
the literal `key` followed by a nonempty run of class characters. -/
def atKeyRun (p : Char → Bool) (key : List Char) (s : List Char) :
    Option (List Char) :=
  if prefixOfCh key s then
    let (run, _) := takeRun p (s.drop key.length)
    if run.isEmpty then none else some run
  else none

/-- JS `s.match(/key(\d+)/)?.[1]`. -/
def findCapture (key : List Char) (s : List Char) : Option (List Char) :=
  scanFor (atKeyRun isDigitCh key) s

/-- JS `s.match(/key(\w+)/)?.[1]`. -/
def findWordCapture (key : List Char) (s : List Char) : Option (List Char) :=
  scanFor (atKeyRun isWordCh key) s

/-- JS `s.match(/key(\d+)$/)?.[1]`: the literal `key` followed by a
nonempty digit run that reaches the end of the string. -/
def findCaptureAtEnd (key : List Char) (s : List Char) : Option (List Char) :=
  scanFor
    (fun t =>
      if prefixOfCh key t then
        let (run, rem) := takeRun isDigitCh (t.drop key.length)
        if run.isEmpty || !rem.isEmpty then none else some run
      else none) s

/-- At-position matcher for `key(\d+\.?\d*)` (the `temp=` capture). -/
def atKeyFloat (key : List Char) (s : List Char) : Option (List Char) :=
  if prefixOfCh key s then
    let (intRun, rem) := takeRun isDigitCh (s.drop key.length)
    if intRun.isEmpty then none
    else
      match rem with
      | '.' :: rest =>
        let (fracRun, _) := takeRun isDigitCh rest
        some (intRun ++ '.' :: fracRun)
      | _ => some intRun
  else none

/-- JS `s.match(/key(\d+\.?\d*)/)?.[1]`. -/
def findFloatCapture (key : List Char) (s : List Char) : Option (List Char) :=
  scanFor (atKeyFloat key) s

/-! ## Numeric helpers -/

/-- Value of a `[\d.]`-class capture under JS `parseFloat`: leading digits,
an optional dot, trailing digits; `none` when the capture holds no parseable
number (JS `NaN`, e.g. a capture made only of dots). -/
def parseFloatCap (cs : List Char) : Option ℚ :=
  let (intRun, rem) := takeRun isDigitCh cs
  match rem with
  | '.' :: rest =>
    let (fracRun, _) := takeRun isDigitCh rest
    if intRun.isEmpty && fracRun.isEmpty then none
    else
      some ((digitsVal intRun : ℚ) +
        (digitsVal fracRun : ℚ) / ((10 : ℚ) ^ fracRun.length))
  | _ =>
    if intRun.isEmpty then none else some (digitsVal intRun : ℚ)

/-- Source expression `reduce((a, b) => a + b, 0) / length`. -/
def ratMean (l : List ℚ) : ℚ := l.sum / (l.length : ℚ)

/-- JS `Math.round` (round half toward positive infinity). -/
def jsRound (q : ℚ) : ℚ := (⌊q + 1 / 2⌋ : ℤ)

/-- The pervasive `value || prev` guard of the source applied to a
JS-number (`Option ℚ`) value: `0`, `NaN` and `undefined` are falsy and
yield the previous value. -/
def numOrPrev (v : Option ℚ) (prev : Option ℚ) : Option ℚ :=
  match v with
  | some q => if q = 0 then prev else some q
  | none => prev

/-- Embedding of `parseInt(capture) || prev` and `parseInt(capture || '0') || prev` of the
compact branches: an absent capture parses to `NaN` (resp. `0`), so either
way the previous value is kept; a zero capture is likewise replaced by the
previous value. -/
def intOrPrev (cap : Option (List Char)) (prev : Option ℚ) : Option ℚ :=
  match cap with
  | some d => if digitsVal d = 0 then prev else some (digitsVal d : ℚ)
  | none => prev

/-! ## JSON values and `JSON.parse` -/

/-- JSON/JS values, as far as the telemetry payloads need them. -/
inductive JVal where
  | jnull : JVal
  | jbool : Bool → JVal
  | jnum : ℚ → JVal
  | jstr : List Char → JVal
  | jarr : List JVal → JVal
  | jobj : List (List Char × JVal) → JVal

/-- Property access `data.k`: `none` models JS `undefined`.  With
duplicate keys `JSON.parse` keeps the last one, hence the reversed
search. -/
def jGet (v : JVal) (k : List Char) : Option JVal :=
  match v with
  | JVal.jobj fields => ((fields.reverse).find? (fun kv => kv.1 = k)).map (·.2)
  | _ => none

/-- Nested access `data.k1.k2` (attribute access on a non-object yields `undefined`). -/
def jGet2 (v : JVal) (k1 k2 : List Char) : Option JVal :=
  match jGet v k1 with
  | some w => jGet w k2
  | none => none

/-- JS truthiness of a possibly-undefined value. -/
def jTruthy (v : Option JVal) : Bool :=
  match v with
  | none => false
  | some JVal.jnull => false
  | some (JVal.jbool b) => b
  | some (JVal.jnum q) => q ≠ 0
  | some (JVal.jstr s) => !s.isEmpty
  | some (JVal.jarr _) => true
  | some (JVal.jobj _) => true

/-- Numeric read of a JS value: a number gives itself; `undefined`, `null`
and other shapes give `none` (the stored field would not be a real
number).  Non-numeric telemetry fields are outside the wire formats and
are modelled as absent. -/
def jNumOf (v : Option JVal) : Option ℚ :=
  match v with
  | some (JVal.jnum q) => some q
  | _ => none

/-- Is the (possibly absent) value a number (`typeof x === 'number'`)? -/
def jIsNum (v : Option JVal) : Bool :=
  match v with
  | some (JVal.jnum _) => true
  | _ => false

/-- Source expression `data.k || []` followed by numeric use of the elements.  A falsy or
absent value gives the empty series; a numeric array gives its entries;
anything else would make the source throw inside `filter`/`reduce` or
poison the arithmetic with NaN before `setSensors` commits, which the
model maps to the caught-error path (`none`). -/
def seriesNums (v : Option JVal) : Option (List ℚ) :=
  match v with
  | none => some []
  | some w =>
    if jTruthy (some w) then
      match w with
      | JVal.jarr l =>
        l.foldr
          (fun e acc =>
            match e, acc with
            | JVal.jnum q, some t => some (q :: t)
            | _, _ => none)
          (some [])
      | _ => none
    else some []

/-- Source expression `data.k || dflt` for the valve/pump arrays, whose elements are only
ever compared with `=== 1` (indexing past the end or into a non-array
yields `undefined`, which compares unequal). -/
def jArrOr (v : Option JVal) (dflt : List JVal) : List JVal :=
  match v with
  | none => dflt
  | some w =>
    if jTruthy (some w) then
      match w with
      | JVal.jarr l => l
      | _ => []
    else dflt

/-- Source expression `l[i] === 1`. -/
def jIdxIsOne (l : List JVal) (i : Nat) : Bool :=
  match l.get? i with
  | some (JVal.jnum q) => q = 1
  | _ => false

/-- The character \x7d, written via its code. -/
def closeBraceChar : Char := Char.ofNat 125

/-- Skip JSON whitespace. -/
def skipWs (s : List Char) : List Char := (takeRun isWsCh s).2

/-- String-literal body: characters up to the closing quote, with the
common escapes; an unsupported escape fails the parse. -/
def strLitAux : List Char → List Char → Option (List Char × List Char)
  | _, [] => none
  | acc, c :: rest =>
    if c = '"' then some (acc.reverse, rest)
    else if c = '\\' then
      match rest with
      | [] => none
      | e :: rest2 =>
        if e = '"' || e = '\\' || e = '/' then strLitAux (e :: acc) rest2
        else if e = 'n' then strLitAux ('\n' :: acc) rest2
        else if e = 't' then strLitAux ('\t' :: acc) rest2
        else if e = 'r' then strLitAux (Char.ofNat 13 :: acc) rest2
        else none
    else strLitAux (c :: acc) rest

/-- JSON number literal: optional minus, integer part, optional fraction,
optional exponent. -/
def parseNumLit (s : List Char) : Option (ℚ × List Char) :=
  let (neg, s1) := match s with
    | '-' :: rest => (true, rest)
    | _ => (false, s)
  let (intRun, s2) := takeRun isDigitCh s1
  if intRun.isEmpty then none
  else
    let (frac, s3) := match s2 with
      | '.' :: rest =>
        let (fracRun, rem) := takeRun isDigitCh rest
        (some fracRun, rem)
      | _ => (none, s2)
    match frac with
    | some fracRun =>
      if fracRun.isEmpty then none
      else
        let mantissa : ℚ := (digitsVal intRun : ℚ) +
          (digitsVal fracRun : ℚ) / ((10 : ℚ) ^ fracRun.length)
        expo (if neg then -mantissa else mantissa) s3
    | none => expo (if neg then -(digitsVal intRun : ℚ) else (digitsVal intRun : ℚ)) s3
where
  expo (m : ℚ) (s : List Char) : Option (ℚ × List Char) :=
    match s with
    | 'e' :: rest => expoTail m rest
    | 'E' :: rest => expoTail m rest
    | _ => some (m, s)
  expoTail (m : ℚ) (s : List Char) : Option (ℚ × List Char) :=
    let (eneg, s1) := match s with
      | '-' :: rest => (true, rest)
      | '+' :: rest => (false, rest)
      | _ => (false, s)
    let (eRun, s2) := takeRun isDigitCh s1
    if eRun.isEmpty then none
    else if eneg then some (m / (10 : ℚ) ^ digitsVal eRun, s2)
    else some (m * (10 : ℚ) ^ digitsVal eRun, s2)

/-- Parser modes: a full value, the members of an object after its first
key is due, or the elements of an array. -/
inductive PMode where
  | pval : PMode
  | pobj : List (List Char × JVal) → PMode
  | parr : List JVal → PMode

/-- Fuel-indexed recursive-descent JSON parser core. -/
def parseP : Nat → PMode → List Char → Option (JVal × List Char)
  | 0, _, _ => none
  | Nat.succ fuel, PMode.pval, s =>
    match skipWs s with
    | [] => none
    | c :: rest =>
      if c = braceChar then
        match skipWs rest with
        | d :: rest2 =>
          if d = closeBraceChar then some (JVal.jobj [], rest2)
          else parseP fuel (PMode.pobj []) rest
        | [] => none
      else if c = '[' then
        match skipWs rest with
        | d :: rest2 =>
          if d = ']' then some (JVal.jarr [], rest2)
          else parseP fuel (PMode.parr []) rest
        | [] => none
      else if c = '"' then
        match strLitAux [] rest with
        | some (content, rem) => some (JVal.jstr content, rem)
        | none => none
      else if c = 't' then
        if prefixOfCh ['r', 'u', 'e'] rest then some (JVal.jbool true, rest.drop 3)
        else none
      else if c = 'f' then
        if prefixOfCh ['a', 'l', 's', 'e'] rest then some (JVal.jbool false, rest.drop 4)
        else none
      else if c = 'n' then
        if prefixOfCh ['u', 'l', 'l'] rest then some (JVal.jnull, rest.drop 3)
        else none
      else
        match parseNumLit (c :: rest) with
        | some (q, rem) => some (JVal.jnum q, rem)
        | none => none
  | Nat.succ fuel, PMode.pobj acc, s =>
    match skipWs s with
    | c :: rest =>
      if c = '"' then
        match strLitAux [] rest with
        | some (key, rem) =>
          (match skipWs rem with
           | ':' :: rem2 =>
             (match parseP fuel PMode.pval rem2 with
              | some (v, rem3) =>
                (match skipWs rem3 with
                 | ',' :: rem4 => parseP fuel (PMode.pobj (acc ++ [(key, v)])) rem4
                 | d :: rem4 =>
                   if d = closeBraceChar then
                     some (JVal.jobj (acc ++ [(key, v)]), rem4)
                   else none
                 | [] => none)
              | none => none)
           | _ => none)
        | none => none
      else none
    | [] => none
  | Nat.succ fuel, PMode.parr acc, s =>
    match parseP fuel PMode.pval s with
    | some (v, rem) =>
      (match skipWs rem with
       | ',' :: rem2 => parseP fuel (PMode.parr (acc ++ [v])) rem2
       | ']' :: rem2 => some (JVal.jarr (acc ++ [v]), rem2)
       | _ => none)
    | none => none

/-- Embedding of `JSON.parse`: the whole payload must parse as one JSON value (trailing
garbage throws, i.e. yields `none`). -/
def jsonParse (s : List Char) : Option JVal :=
  match parseP (2 * s.length + 4) PMode.pval s with
  | some (v, rem) => if (skipWs rem).isEmpty then some v else none
  | none => none

/-! ## Dashboard state

The `useState` cells of the dashboard component: sensors, pumps, valves
and the data-source label. -/

/-- The `Sensors` state.  The six scalar fields are JS numbers
(`Option ℚ`, see the module comment); the three per-probe series are
optional because the TS interface marks them optional and every
`setSensors(prev => (...))` call of the source builds an object literal
with only the six scalar fields, dropping the series. -/
structure Sensors where
  pressure : Option ℚ
  soilTemp : Option ℚ
  soilHumidity : Option ℚ
  waterLevel : Option ℚ
  airTemp : Option ℚ
  airHumidity : Option ℚ
  ds_t : Option (List (Option ℚ))
  soil : Option (List (Option ℚ))
  water : Option (List (Option ℚ))
  deriving DecidableEq

structure Pumps where
  irrigation : Bool
  suction : Bool
  deriving DecidableEq

structure Valves where
  valve1 : Bool
  valve2 : Bool
  valve3 : Bool
  deriving DecidableEq

/-- The in-memory dashboard state touched by the message handler. -/
structure Dash where
  sensors : Sensors
  pumps : Pumps
  valves : Valves
  dataSource : String
  deriving DecidableEq

/-- The initial state of the component: the "happy" fallback sensor
defaults, both pumps off, all valves closed, `dataSource = 'unknown'`. -/
def dash0 : Dash :=
  { sensors :=
      { pressure := some 825, soilTemp := some 25, soilHumidity := some 70,
        waterLevel := some 10, airTemp := some 27, airHumidity := some 65,
        ds_t := none, soil := none, water := none }
    pumps := { irrigation := false, suction := false }
    valves := { valve1 := false, valve2 := false, valve3 := false }
    dataSource := "unknown" }

/-- Which branch of the message handler fired (mirrors the distinct
`addLog` messages of the source, including the final
"Unknown data format" branch). -/
inductive Outcome where
  | pumpStatusMsg : Outcome
  | testTopicMsg : Outcome
  | jsonNested : Outcome
  | jsonLegacy : Outcome
  | jsonSimple : Outcome
  | jsonNoVariant : Outcome
  | caughtError : Outcome
  | stm32Simple : Outcome
  | stm32SimpleNoGuard : Outcome
  | ultraShort : Outcome
  | ultraShortNoGuard : Outcome
  | bme280 : Outcome
  | bme280NoGuard : Outcome
  | comprehensive : Outcome
  | comprehensiveNoGuard : Outcome
  | compact : Outcome
  | compactNoGuard : Outcome
  | statusMsg : Outcome
  | statusNoGuard : Outcome
  | unknownFormat : Outcome
  | unhandledTopic : Outcome
  deriving DecidableEq

/-! ## Decoder branches (the format chain of `client.on('message')`) -/

/-- Source expression `soilTemps.filter(temp => temp > -100)` — DS18B20 readings at or
below -100 are sensor-fault values. -/
def validSoilTemps (soilTemps : List ℚ) : List ℚ :=
  soilTemps.filter (fun temp => temp > -100)

/-- Source expression `validSoilTemps.length > 0 ? mean : data.bme.t` — fall back to the
air temperature when no valid probe reading exists. -/
def avgSoilTemp (soilTemps : List ℚ) (airT : Option ℚ) : Option ℚ :=
  if 0 < (validSoilTemps soilTemps).length then
    some (ratMean (validSoilTemps soilTemps))
  else airT

/-- STM32 nested-JSON branch
(`data.bme && data.bme.t !== undefined`). -/
def handleStm32Json (st : Dash) (data : JVal) : Dash × Outcome :=
  match seriesNums (jGet data "ds18b20".data),
        seriesNums (jGet data "soil".data),
        seriesNums (jGet data "water".data) with
  | some soilTemps, some soilMoisture, some waterLevels =>
    let valvesArr := jArrOr (jGet data "valve".data)
      [JVal.jnum 0, JVal.jnum 0, JVal.jnum 0]
    let pumpsArr := jArrOr (jGet data "pump".data) [JVal.jnum 0, JVal.jnum 0]
    ({ sensors :=
        { pressure := jNumOf (jGet2 data "bme".data "p".data)
          airTemp := jNumOf (jGet2 data "bme".data "t".data)
          airHumidity := jNumOf (jGet2 data "bme".data "h".data)
          soilTemp := avgSoilTemp soilTemps (jNumOf (jGet2 data "bme".data "t".data))
          soilHumidity :=
            if 0 < soilMoisture.length then some (ratMean soilMoisture) else some 0
          waterLevel :=
            if 0 < waterLevels.length then some (ratMean waterLevels) else some 0
          ds_t := some (soilTemps.map some)
          soil := some (soilMoisture.map some)
          water := some (waterLevels.map some) }
       pumps := { irrigation := jIdxIsOne pumpsArr 0, suction := jIdxIsOne pumpsArr 1 }
       valves :=
         { valve1 := jIdxIsOne valvesArr 0, valve2 := jIdxIsOne valvesArr 1,
           valve3 := jIdxIsOne valvesArr 2 }
       dataSource := "stm32-json" }, Outcome.jsonNested)
  | _, _, _ => (st, Outcome.caughtError)

/-- Mean `(a + b + c) / 3` over JS numbers: one `undefined` poisons the mean
to NaN (`none`). -/
def jsMean (l : List (Option ℚ)) : Option ℚ :=
  (l.foldr (fun v acc =>
      match v, acc with
      | some q, some t => some (q :: t)
      | _, _ => none) (some [])).map ratMean

/-- Legacy flat-JSON branch (`data.bme_t` truthy). -/
def handleLegacyJson (st : Dash) (data : JVal) : Dash × Outcome :=
  match seriesNums (jGet data "ds_t".data) with
  | some soilTemps =>
    let soilMoisture : List (Option ℚ) :=
      [jNumOf (jGet data "soil0".data), jNumOf (jGet data "soil1".data),
       jNumOf (jGet data "soil2".data)]
    let waterLevels : List (Option ℚ) :=
      [jNumOf (jGet data "water1".data), jNumOf (jGet data "water2".data)]
    ({ sensors :=
        { pressure := jNumOf (jGet data "bme_p".data)
          airTemp := jNumOf (jGet data "bme_t".data)
          airHumidity := jNumOf (jGet data "bme_h".data)
          soilTemp :=
            if 0 < soilTemps.length then some (ratMean soilTemps) else some 0
          soilHumidity := jsMean soilMoisture
          waterLevel := jsMean waterLevels
          ds_t := some (soilTemps.map some)
          soil := some soilMoisture
          water := some waterLevels }
       pumps :=
         { irrigation := jTruthy (jGet data "pump1".data),
           suction := jTruthy (jGet data "pump2".data) }
       valves :=
         { valve1 := jTruthy (jGet data "valve1".data),
           valve2 := jTruthy (jGet data "valve2".data),
           valve3 := jTruthy (jGet data "valve3".data) }
       dataSource := "mqtt-json-legacy" }, Outcome.jsonLegacy)
  | none => (st, Outcome.caughtError)

/-- Source expression `data.x ?? prev.x` of the simple-JSON branch (nullish coalescing:
`0` is kept, only `undefined`/`null` fall back; a non-numeric stored
value is modelled as a corrupted field). -/
def nullishNum (v : Option JVal) (prev : Option ℚ) : Option ℚ :=
  match v with
  | none => prev
  | some JVal.jnull => prev
  | some (JVal.jnum q) => some q
  | some _ => none

/-- Simple six-scalar JSON branch
(`typeof data.pressure === 'number' && typeof data.soilTemp === 'number'`). -/
def handleSimpleJson (st : Dash) (data : JVal) : Dash × Outcome :=
  ({ st with sensors :=
      { pressure := nullishNum (jGet data "pressure".data) st.sensors.pressure
        soilTemp := nullishNum (jGet data "soilTemp".data) st.sensors.soilTemp
        soilHumidity := nullishNum (jGet data "soilHumidity".data) st.sensors.soilHumidity
        waterLevel := nullishNum (jGet data "waterLevel".data) st.sensors.waterLevel
        airTemp := nullishNum (jGet data "airTemp".data) st.sensors.airTemp
        airHumidity := nullishNum (jGet data "airHumidity".data) st.sensors.airHumidity
        ds_t := none, soil := none, water := none }
             dataSource := "mqtt-json-simple" }, Outcome.jsonSimple)

/-- The JSON sub-variant dispatch, in source order: nested STM32 shape,
legacy flat shape, simple shape, otherwise nothing happens. -/
def jsonBranch (st : Dash) (data : JVal) : Dash × Outcome :=
  if jTruthy (jGet data "bme".data) && (jGet2 data "bme".data "t".data).isSome then
    handleStm32Json st data
  else if jTruthy (jGet data "bme_t".data) then
    handleLegacyJson st data
  else if jIsNum (jGet data "pressure".data) && jIsNum (jGet data "soilTemp".data) then
    handleSimpleJson st data
  else (st, Outcome.jsonNoVariant)

/-- A `setSensors(prev => (...))` object literal carrying exactly the six
scalar fields: the optional series fields are dropped. -/
def setScalars (st : Dash) (pressure soilTemp soilHumidity waterLevel
    airTemp airHumidity : Option ℚ) (tag : String) : Dash :=
  { st with
    sensors :=
      { pressure := pressure, soilTemp := soilTemp,
        soilHumidity := soilHumidity, waterLevel := waterLevel,
        airTemp := airTemp, airHumidity := airHumidity,
        ds_t := none, soil := none, water := none }
    dataSource := tag }

/-- Simple STM32 positional branch: predicate
`includes('STM32_DATA_') || includes('P') && includes('_')`, then
`replace('STM32_DATA_', '')` and single-letter-coded captures. -/
def handleStm32Simple (st : Dash) (p : List Char) : Dash × Outcome :=
  let cleanData := removeFirst "STM32_DATA_".data p
  let pressure := findCapture "P".data cleanData
  let soilTemp := findCapture "ST".data cleanData
  let soilHumidity := findCapture "SH".data cleanData
  let waterLevel := findCapture "WL".data cleanData
  let airTemp := findCapture "AT".data cleanData
  let airHumidity := findCapture "AH".data cleanData
  if pressure.isSome && soilTemp.isSome then
    (setScalars st
      (intOrPrev pressure st.sensors.pressure)
      (intOrPrev soilTemp st.sensors.soilTemp)
      (intOrPrev soilHumidity st.sensors.soilHumidity)
      (intOrPrev waterLevel st.sensors.waterLevel)
      (intOrPrev airTemp st.sensors.airTemp)
      (intOrPrev airHumidity st.sensors.airHumidity)
      "stm32-simple", Outcome.stm32Simple)
  else (st, Outcome.stm32SimpleNoGuard)

/-- Whole-payload grammar `^P\d+T\d+H\d+W\d+A\d+H\d+$`. -/
def ultraPred (p : List Char) : Bool :=
  match atKeyRun isDigitCh "P".data p with
  | none => false
  | some r1 =>
    let s1 := p.drop (1 + r1.length)
    match atKeyRun isDigitCh "T".data s1 with
    | none => false
    | some r2 =>
      let s2 := s1.drop (1 + r2.length)
      match atKeyRun isDigitCh "H".data s2 with
      | none => false
      | some r3 =>
        let s3 := s2.drop (1 + r3.length)
        match atKeyRun isDigitCh "W".data s3 with
        | none => false
        | some r4 =>
          let s4 := s3.drop (1 + r4.length)
          match atKeyRun isDigitCh "A".data s4 with
          | none => false
          | some r5 =>
            let s5 := s4.drop (1 + r5.length)
            match atKeyRun isDigitCh "H".data s5 with
            | none => false
            | some r6 => (s5.drop (1 + r6.length)).isEmpty

/-- Ultra-short STM32 positional branch (only reachable when `ultraPred`
holds; the captures re-scan the payload, the air humidity being the final
`H` group). -/
def handleUltraShort (st : Dash) (p : List Char) : Dash × Outcome :=
  let pressure := findCapture "P".data p
  let soilTemp := findCapture "T".data p
  let soilHumidity := findCapture "H".data p
  let waterLevel := findCapture "W".data p
  let airTemp := findCapture "A".data p
  let airHumidity := findCaptureAtEnd "H".data p
  if pressure.isSome && soilTemp.isSome then
    (setScalars st
      (intOrPrev pressure st.sensors.pressure)
      (intOrPrev soilTemp st.sensors.soilTemp)
      (intOrPrev soilHumidity st.sensors.soilHumidity)
      (intOrPrev waterLevel st.sensors.waterLevel)
      (intOrPrev airTemp st.sensors.airTemp)
      (intOrPrev airHumidity st.sensors.airHumidity)
      "stm32-ultra", Outcome.ultraShort)
  else (st, Outcome.ultraShortNoGuard)

/-- At-position matcher for
`BME:\s*([\d.]+)C,\s*([\d.]+)hPa,\s*([\d.]+)%`. -/
def atBme (s : List Char) : Option (List Char × List Char × List Char) :=
  if prefixOfCh "BME:".data s then
    let s0 := skipWs (s.drop 4)
    match takeRun (fun c => isDigitCh c || c = '.') s0 with
    | ([], _) => none
    | (c1, r1) =>
      if prefixOfCh "C,".data r1 then
        let s1 := skipWs (r1.drop 2)
        match takeRun (fun c => isDigitCh c || c = '.') s1 with
        | ([], _) => none
        | (c2, r2) =>
          if prefixOfCh "hPa,".data r2 then
            let s2 := skipWs (r2.drop 4)
            match takeRun (fun c => isDigitCh c || c = '.') s2 with
            | ([], _) => none
            | (c3, r3) =>
              if prefixOfCh "%".data r3 then some (c1, c2, c3) else none
          else none
      else none
  else none

/-- At-position matcher for `Soil:\s*(\d+)%,\s*(\d+)%,\s*(\d+)%`. -/
def atSoil (s : List Char) : Option (List Char × List Char × List Char) :=
  if prefixOfCh "Soil:".data s then
    let s0 := skipWs (s.drop 5)
    match takeRun isDigitCh s0 with
    | ([], _) => none
    | (c1, r1) =>
      if prefixOfCh "%,".data r1 then
        let s1 := skipWs (r1.drop 2)
        match takeRun isDigitCh s1 with
        | ([], _) => none
        | (c2, r2) =>
          if prefixOfCh "%,".data r2 then
            let s2 := skipWs (r2.drop 2)
            match takeRun isDigitCh s2 with
            | ([], _) => none
            | (c3, r3) =>
              if prefixOfCh "%".data r3 then some (c1, c2, c3) else none
          else none
      else none
  else none

/-- At-position matcher for `Water:\s*([\d.]+)%,\s*([\d.]+)%`. -/
def atWater (s : List Char) : Option (List Char × List Char) :=
  if prefixOfCh "Water:".data s then
    let s0 := skipWs (s.drop 6)
    match takeRun (fun c => isDigitCh c || c = '.') s0 with
    | ([], _) => none
    | (c1, r1) =>
      if prefixOfCh "%,".data r1 then
        let s1 := skipWs (r1.drop 2)
        match takeRun (fun c => isDigitCh c || c = '.') s1 with
        | ([], _) => none
        | (c2, r2) =>
          if prefixOfCh "%".data r2 then some (c1, c2) else none
      else none
  else none

/-- At-position matcher for `Pompa:\s*(\w+),\s*(\w+)`. -/
def atPompa (s : List Char) : Option (List Char × List Char) :=
  if prefixOfCh "Pompa:".data s then
    let s0 := skipWs (s.drop 6)
    match takeRun isWordCh s0 with
    | ([], _) => none
    | (c1, r1) =>
      if prefixOfCh ",".data r1 then
        let s1 := skipWs (r1.drop 1)
        match takeRun isWordCh s1 with
        | ([], _) => none
        | (c2, _) => some (c1, c2)
      else none
  else none

/-- STM32 BME280 pipe-summary branch (predicate:
`includes('BME:') && includes('Soil:') && includes('Water:')`). -/
def handleBme280 (st : Dash) (p : List Char) : Dash × Outcome :=
  match scanFor atBme p with
  | none => (st, Outcome.bme280NoGuard)
  | some (c1, c2, c3) =>
    let airTemp := parseFloatCap c1
    let pressure := parseFloatCap c2
    let airHumidity := parseFloatCap c3
    let avgSoilHumidity : ℚ :=
      match scanFor atSoil p with
      | some (s1, s2, s3) =>
        jsRound (((digitsVal s1 : ℚ) + (digitsVal s2 : ℚ) + (digitsVal s3 : ℚ)) / 3)
      | none => 0
    let avgWaterLevel : Option ℚ :=
      match scanFor atWater p with
      | some (w1, w2) =>
        (match parseFloatCap w1, parseFloatCap w2 with
         | some q1, some q2 => some (jsRound ((q1 + q2) / 2))
         | _, _ => none)
      | none => some 0
    let st1 := setScalars st
      (numOrPrev pressure st.sensors.pressure)
      (numOrPrev airTemp st.sensors.soilTemp)
      (numOrPrev (some avgSoilHumidity) st.sensors.soilHumidity)
      (numOrPrev avgWaterLevel st.sensors.waterLevel)
      (numOrPrev airTemp st.sensors.airTemp)
      (numOrPrev airHumidity st.sensors.airHumidity)
      "stm32-bme280"
    match scanFor atPompa p with
    | some (p1, p2) =>
      ({ st1 with pumps := { irrigation := p1 = "ON".data, suction := p2 = "ON".data } },
        Outcome.bme280)
    | none => (st1, Outcome.bme280)

/-- Legacy STM32 comprehensive key=value branch (predicate:
`includes('st=') && includes('at=') && includes('p=')`). -/
def handleComprehensive (st : Dash) (p : List Char) : Dash × Outcome :=
  let soilTemp := findCapture "st=".data p
  let airTemp := findCapture "at=".data p
  let soilHum := findCapture "sh=".data p
  let airHum := findCapture "ah=".data p
  let pressure := findCapture "p=".data p
  let waterLevel := findCapture "wl=".data p
  if soilTemp.isSome && airTemp.isSome && pressure.isSome then
    (setScalars st
      (intOrPrev pressure st.sensors.pressure)
      (intOrPrev soilTemp st.sensors.soilTemp)
      (intOrPrev soilHum st.sensors.soilHumidity)
      (intOrPrev waterLevel st.sensors.waterLevel)
      (intOrPrev airTemp st.sensors.airTemp)
      (intOrPrev airHum st.sensors.airHumidity)
      "stm32-comprehensive", Outcome.comprehensive)
  else (st, Outcome.comprehensiveNoGuard)

/-- Simple compact branch (predicate:
`includes('temp=') && includes('hum=')`). -/
def handleCompact (st : Dash) (p : List Char) : Dash × Outcome :=
  let temp := findFloatCapture "temp=".data p
  let hum := findCapture "hum=".data p
  match temp, hum with
  | some t, some h =>
    let roundedTemp : Option ℚ := (parseFloatCap t).map jsRound
    (setScalars st
      st.sensors.pressure
      (numOrPrev roundedTemp st.sensors.soilTemp)
      (intOrPrev (some h) st.sensors.soilHumidity)
      st.sensors.waterLevel
      (numOrPrev roundedTemp st.sensors.airTemp)
      (intOrPrev (some h) st.sensors.airHumidity)
      "stm32-compact", Outcome.compact)
  | _, _ => (st, Outcome.compactNoGuard)

/-- STM32 status branch (predicate:
`includes('status=') && includes('uptime=')`): only the data-source tag
may change, and only when the current tag is neither
`'stm32-comprehensive'` nor `'stm32-compact'`. -/
def handleStatus (st : Dash) (p : List Char) : Dash × Outcome :=
  let status := findWordCapture "status=".data p
  let uptime := findCapture "uptime=".data p
  if status.isSome && uptime.isSome then
    if st.dataSource ≠ "stm32-comprehensive" && st.dataSource ≠ "stm32-compact" then
      ({ st with dataSource := "stm32-status" }, Outcome.statusMsg)
    else (st, Outcome.statusMsg)
  else (st, Outcome.statusNoGuard)

/-- Does the payload start with the object brace? -/
def startsWithBrace (p : List Char) : Bool :=
  match p with
  | c :: _ => c = braceChar
  | [] => false

/-- The telemetry-topic format chain, in the exact source order of the
`if`/`else if` cascade. -/
def telemetryChain (st : Dash) (p : List Char) : Dash × Outcome :=
  if startsWithBrace p then
    match jsonParse p with
    | some data => jsonBranch st data
    | none => (st, Outcome.caughtError)
  else if containsSub "STM32_DATA_".data p ||
      (containsSub "P".data p && containsSub "_".data p) then
    handleStm32Simple st p
  else if ultraPred p then
    handleUltraShort st p
  else if containsSub "BME:".data p && containsSub "Soil:".data p &&
      containsSub "Water:".data p then
    handleBme280 st p
  else if containsSub "st=".data p && containsSub "at=".data p &&
      containsSub "p=".data p then
    handleComprehensive st p
  else if containsSub "temp=".data p && containsSub "hum=".data p then
    handleCompact st p
  else if containsSub "status=".data p && containsSub "uptime=".data p then
    handleStatus st p
  else (st, Outcome.unknownFormat)

/-- The `d02/status` topic handler: pump on/off updates only. -/
def statusTopicBranch (st : Dash) (p : List Char) : Dash × Outcome :=
  let st1 :=
    if containsSub "pump_irrigation=".data p then
      match findWordCapture "pump_irrigation=".data p with
      | some w => { st with pumps := { st.pumps with irrigation := w = "ON".data } }
      | none => st
    else st
  let st2 :=
    if containsSub "pump_suction=".data p then
      match findWordCapture "pump_suction=".data p with
      | some w => { st1 with pumps := { st1.pumps with suction := w = "ON".data } }
      | none => st1
    else st1
  (st2, Outcome.pumpStatusMsg)

/-- The `test` topic handler: sensors untouched, the tag may only move off
`'unknown'`/`'awaiting-mqtt'`. -/
def testTopicBranch (st : Dash) : Dash × Outcome :=
  if st.dataSource = "unknown" || st.dataSource = "awaiting-mqtt" then
    ({ st with dataSource := "mqtt-test" }, Outcome.testTopicMsg)
  else (st, Outcome.testTopicMsg)

/-- The full `client.on('message')` handler, with the telemetry topic at
its default `'d02/telemetry'`. -/
def onMessage (st : Dash) (topic : String) (payload : String) : Dash × Outcome :=
  if topic = "d02/telemetry" || topic = "d02/status" || topic = "test" then
    if topic = "d02/status" then statusTopicBranch st payload.data
    else if topic = "test" then testTopicBranch st
    else telemetryChain st payload.data
  else (st, Outcome.unhandledTopic)

/-! ## Command dispatcher (`publishPumpControl`, `controlPump`,
and the `/api/pump` relay route) -/

/-- JS `type.toUpperCase()` (the command names are ASCII). -/
def upper (s : String) : String := String.mk (s.data.map Char.toUpper)

/-- Connection facts the dispatcher reads from the MQTT client ref. -/
structure MqttConn where
  clientExists : Bool
  connected : Bool
  deriving DecidableEq

/-- Embedding of `publishPumpControl(type)`: returns whether the publish path was
taken, and the payload published on `d02/cmd` (the uppercased command,
whatever it is — there is no vocabulary check on this path). -/
def publishPumpControl (conn : MqttConn) (ty : String) : Bool × Option String :=
  if !conn.clientExists then (false, none)
  else if !conn.connected then (false, none)
  else (true, some (upper ty))

/-- The `pump_type` value written to the `pump_commands` audit row. -/
def pumpTypeOf (ty : String) : String :=
  if ty = "pompa" then "irrigation"
  else if ty = "sedot" then "suction"
  else "unknown"

/-- Observable effects of one `controlPump` call up to (and excluding)
the asynchronous fallback response. -/
structure DispatchTrace where
  dbCommand : String
  dbPumpType : String
  mqttPayload : Option String
  usedApiFallback : Bool
  apiCommand : Option String
  deriving DecidableEq

/-- The synchronous part of `controlPump(type)`: audit row, MQTT publish
attempt, optimistic pump-state update, and the decision to fall back to
the `/api/pump` relay. -/
def controlPumpSync (conn : MqttConn) (pumps : Pumps) (ty : String) :
    Pumps × DispatchTrace :=
  let sent := (publishPumpControl conn ty).1
  let pumps1 :=
    if ty = "pompa" then { pumps with irrigation := true }
    else if ty = "sedot" then { pumps with suction := true }
    else if ty = "stop" then { irrigation := false, suction := false }
    else pumps
  (pumps1,
    { dbCommand := upper ty, dbPumpType := pumpTypeOf ty,
      mqttPayload := (publishPumpControl conn ty).2,
      usedApiFallback := !sent,
      apiCommand := if sent then none else some ty })

/-- The `/api/pump` relay route's command validation:
`['START', 'STOP', 'POMPA', 'SEDOT'].includes(command?.toUpperCase())`. -/
def apiPumpValid (cmd : String) : Bool :=
  upper cmd = "START" || upper cmd = "STOP" ||
  upper cmd = "POMPA" || upper cmd = "SEDOT"

/-- Result of the `/api/pump` relay: an invalid-command rejection before
any broker contact, or the payload it publishes on the command topic. -/
inductive ApiPumpResult where
  | invalidCommand : ApiPumpResult
  | published : String → ApiPumpResult
  deriving DecidableEq

/-- The `/api/pump` relay route: reject outside the fixed set, otherwise
format and publish the payload. -/
def apiPumpRoute (cmd : String) (durationSeconds : Nat) : ApiPumpResult :=
  if !apiPumpValid cmd then ApiPumpResult.invalidCommand
  else
    let c := upper cmd
    if c = "START" || c = "POMPA" then
      if 0 < durationSeconds then
        ApiPumpResult.published ("POMPA:" ++ toString durationSeconds)
      else ApiPumpResult.published "POMPA"
    else if c = "STOP" then ApiPumpResult.published "STOP"
    else ApiPumpResult.published c

/-- The pump-state update the fallback path applies when the relay
reports success (`[type === 'pompa' ? 'irrigation' : 'suction']: true`). -/
def apiFallbackSuccessUpdate (pumps : Pumps) (ty : String) : Pumps :=
  if ty = "pompa" then { pumps with irrigation := true }
  else { pumps with suction := true }

/-! ## The matching order the specification documents (claim C1)

A second decoder assembled from the same branch embeddings but in the
priority order the spec text documents, to compare with the source's
`telemetryChain`. -/

/-- Modelled from the spec: the format chain in the documented priority
order — structured JSON, then comma-delimited key=value (`st=`/`at=`),
then the pipe-delimited summary (`BME:`/`Soil:`/`Water:`), then the
`STM32_DATA_` prefixed positional format, then the ultra-short positional
format, then the status key=value format. -/
def claimedOrderChain (st : Dash) (p : List Char) : Dash × Outcome :=
  if startsWithBrace p then
    match jsonParse p with
    | some data => jsonBranch st data
    | none => (st, Outcome.caughtError)
  else if containsSub "st=".data p && containsSub "at=".data p &&
      containsSub "p=".data p then
    handleComprehensive st p
  else if containsSub "BME:".data p && containsSub "Soil:".data p &&
      containsSub "Water:".data p then
    handleBme280 st p
  else if containsSub "STM32_DATA_".data p ||
      (containsSub "P".data p && containsSub "_".data p) then
    handleStm32Simple st p
  else if ultraPred p then
    handleUltraShort st p
  else if containsSub "status=".data p && containsSub "uptime=".data p then
    handleStatus st p
  else (st, Outcome.unknownFormat)

/-- The ordered predicate list of the source's chain (the actual tie-break
order of the `else if` cascade). -/
def formatPreds : List (List Char → Bool) :=
  [fun p => startsWithBrace p,
   fun p => containsSub "STM32_DATA_".data p ||
     (containsSub "P".data p && containsSub "_".data p),
   fun p => ultraPred p,
   fun p => containsSub "BME:".data p && containsSub "Soil:".data p &&
     containsSub "Water:".data p,
   fun p => containsSub "st=".data p && containsSub "at=".data p &&
     containsSub "p=".data p,
   fun p => containsSub "temp=".data p && containsSub "hum=".data p,
   fun p => containsSub "status=".data p && containsSub "uptime=".data p]

/-- The matcher bodies, in the same order as `formatPreds`. -/
def formatBranches : List (Dash → List Char → Dash × Outcome) :=
  [fun st p =>
    (match jsonParse p with
     | some data => jsonBranch st data
     | none => (st, Outcome.caughtError)),
   handleStm32Simple, handleUltraShort, handleBme280,
   handleComprehensive, handleCompact, handleStatus]

/-- Index of the first predicate in an ordered matcher list that accepts
the payload. -/
def firstTrueIdx : List (List Char → Bool) → List Char → Option Nat
  | [], _ => none
  | f :: fs, p => if f p then some 0 else (firstTrueIdx fs p).map (· + 1)

/-- Index of the first predicate in `formatPreds` that accepts `p`. -/
def firstMatching (p : List Char) : Option Nat := firstTrueIdx formatPreds p

/-! ## Claims -/

attribute [local semireducible] Rat.add Rat.mul Rat.inv Nat.gcd

/-- The end-to-end example payload of the spec (§8). -/
def c4payload : String :=
  "\x7b\"ts\":1288664,\"mode\":\"AUTO\",\"bme\":\x7b\"t\":25.02,\"p\":997,\"h\":57.2\x7d,\"ds18b20\":[-127.00,0.00,0.00],\"soil\":[100,100,100],\"water\":[0.1,1.8],\"valve\":[0,0,0],\"pump\":[0,0]\x7d"

/-- C4: decoding the example STM32 payload on the telemetry topic yields
airTemp 25.02, pressure 997, airHumidity 57.2, soilTemp 0 (the -127 fault
entry excluded, the two remaining valid entries averaged), soilHumidity
100, waterLevel 0.95, both pumps off, all three valves off, and the
structured-JSON-nested tag `stm32-json`. -/
theorem c4_nested_json_end_to_end :
    onMessage dash0 "d02/telemetry" c4payload =
      ({ sensors :=
          { pressure := some 997, soilTemp := some 0, soilHumidity := some 100,
            waterLevel := some (19 / 20), airTemp := some (1251 / 50),
            airHumidity := some (286 / 5),
            ds_t := some [some (-127), some 0, some 0],
            soil := some [some 100, some 100, some 100],
            water := some [some (1 / 10), some (9 / 5)] }
         pumps := { irrigation := false, suction := false }
         valves := { valve1 := false, valve2 := false, valve3 := false }
         dataSource := "stm32-json" }, Outcome.jsonNested) := by
  set_option maxRecDepth 100000 in decide

/-- The payload of the C1 counterexample: it satisfies both the
`STM32_DATA_` matcher's predicate and the comma key=value matcher's
predicate. -/
def c1payload : String := "STM32_DATA_P701_ST21_st=99,at=98,p=97,sh=1,ah=1,wl=1"

/-- C1 (counterexample): the decoder does NOT check the formats in the
spec's documented priority order (JSON, then `st=`/`at=` comma key=value,
then pipe summary, then `STM32_DATA_`, then ultra-short, then status).
`c1payload` structurally satisfies both the comma key=value matcher and
the `STM32_DATA_` matcher; under the documented order the comma matcher
would win (soilTemp 99, tag `stm32-comprehensive`), but the source
resolves it to the `STM32_DATA_` positional matcher (soilTemp 21, tag
`stm32-simple`). -/
theorem c1_counterexample :
    (containsSub "st=".data c1payload.data && containsSub "at=".data c1payload.data &&
      containsSub "p=".data c1payload.data) = true ∧
    containsSub "STM32_DATA_".data c1payload.data = true ∧
    (onMessage dash0 "d02/telemetry" c1payload).1.dataSource = "stm32-simple" ∧
    (onMessage dash0 "d02/telemetry" c1payload).1.sensors.soilTemp = some 21 ∧
    (claimedOrderChain dash0 c1payload.data).1.dataSource = "stm32-comprehensive" ∧
    (claimedOrderChain dash0 c1payload.data).1.sensors.soilTemp = some 99 := by
  set_option maxRecDepth 40000 in decide

/-- C1 (amended): the decoder checks the wire formats in the source's
fixed `else if` order — structured JSON first, then the `STM32_DATA_`
prefixed positional format, then the ultra-short positional format, then
the pipe-delimited `BME:`/`Soil:`/`Water:` summary, then the `st=`/`at=`
comma key=value format, then the `temp=`/`hum=` compact format, then the
status key=value format — and the first matching predicate's branch runs,
deterministically, every time. -/
theorem c1_amended_first_match_wins (st : Dash) (p : List Char) :
    telemetryChain st p =
      (match firstMatching p with
       | some i =>
         (formatBranches.getD i (fun s _ => (s, Outcome.unknownFormat))) st p
       | none => (st, Outcome.unknownFormat)) := by
  unfold telemetryChain firstMatching formatPreds formatBranches firstTrueIdx
  by_cases h1 : startsWithBrace p = true <;>
    by_cases h2 : (containsSub "STM32_DATA_".data p ||
      (containsSub "P".data p && containsSub "_".data p)) = true <;>
    by_cases h3 : ultraPred p = true <;>
    by_cases h4 : (containsSub "BME:".data p && containsSub "Soil:".data p &&
      containsSub "Water:".data p) = true <;>
    by_cases h5 : (containsSub "st=".data p && containsSub "at=".data p &&
      containsSub "p=".data p) = true <;>
    by_cases h6 : (containsSub "temp=".data p && containsSub "hum=".data p) = true <;>
    by_cases h7 : (containsSub "status=".data p && containsSub "uptime=".data p) = true <;>
    simp [h1, h2, h3, h4, h5, h6, h7, firstTrueIdx]

/-- Nested-shape payload whose three series are all empty. -/
def c2payload : String :=
  "\x7b\"bme\":\x7b\"t\":25,\"p\":997,\"h\":57\x7d,\"ds18b20\":[],\"soil\":[],\"water\":[]\x7d"

/-- C2 (counterexample): a successfully decoded nested-JSON message with
an empty soil-moisture series and empty water-level series does NOT keep
the previous derived values — it sets soilHumidity and waterLevel to 0
(the previous values were 70 and 10). -/
theorem c2_counterexample :
    dash0.sensors.soilHumidity = some 70 ∧
    dash0.sensors.waterLevel = some 10 ∧
    (onMessage dash0 "d02/telemetry" c2payload).2 = Outcome.jsonNested ∧
    (onMessage dash0 "d02/telemetry" c2payload).1.sensors.soilHumidity = some 0 ∧
    (onMessage dash0 "d02/telemetry" c2payload).1.sensors.waterLevel = some 0 := by
  set_option maxRecDepth 40000 in decide

/-- C2 (amended): in the nested-JSON branch, a nonempty soil-moisture or
water-level series yields the arithmetic mean of all its entries and a
soil-temperature series with at least one valid entry yields the mean of
the valid entries; but an empty soil-moisture or water-level series
yields 0 (not the previous value), and a soil-temperature series with no
valid entries yields the payload's air temperature (not the previous
value). -/
theorem c2_amended_series_derivation (st : Dash) (data : JVal) (d s w : List ℚ)
    (hd : seriesNums (jGet data "ds18b20".data) = some d)
    (hs : seriesNums (jGet data "soil".data) = some s)
    (hw : seriesNums (jGet data "water".data) = some w) :
    ((s ≠ [] → (handleStm32Json st data).1.sensors.soilHumidity = some (ratMean s)) ∧
      (s = [] → (handleStm32Json st data).1.sensors.soilHumidity = some 0)) ∧
    ((w ≠ [] → (handleStm32Json st data).1.sensors.waterLevel = some (ratMean w)) ∧
      (w = [] → (handleStm32Json st data).1.sensors.waterLevel = some 0)) ∧
    ((validSoilTemps d ≠ [] →
        (handleStm32Json st data).1.sensors.soilTemp =
          some (ratMean (validSoilTemps d))) ∧
      (validSoilTemps d = [] →
        (handleStm32Json st data).1.sensors.soilTemp =
          jNumOf (jGet2 data "bme".data "t".data))) := by
  unfold handleStm32Json
  rw [hd, hs, hw]
  refine ⟨⟨fun hne => ?_, fun he => ?_⟩, ⟨fun hne => ?_, fun he => ?_⟩,
    ⟨fun hne => ?_, fun he => ?_⟩⟩ <;>
    simp_all [avgSoilTemp, List.length_pos]

/-- Nested-shape object used to instantiate the amended C2 theorem. -/
def c2wData : JVal :=
  JVal.jobj
    [("bme".data, JVal.jobj [("t".data, JVal.jnum 25), ("p".data, JVal.jnum 997),
        ("h".data, JVal.jnum 57)]),
     ("ds18b20".data, JVal.jarr []),
     ("soil".data, JVal.jarr [JVal.jnum 30, JVal.jnum 50]),
     ("water".data, JVal.jarr [])]

theorem c2_amended_series_derivation_witness :
    (handleStm32Json dash0 c2wData).1.sensors.soilHumidity = some 40 ∧
    (handleStm32Json dash0 c2wData).1.sensors.waterLevel = some 0 ∧
    (handleStm32Json dash0 c2wData).1.sensors.soilTemp = some 25 := by
  have h := c2_amended_series_derivation dash0 c2wData [] [30, 50] [] rfl rfl rfl
  refine ⟨(h.1.1 (by decide)).trans (by decide), h.2.1.2 rfl,
    (h.2.2.2 (by decide)).trans (by decide)⟩

/-- C5: in the nested-JSON branch, every soil-temperature entry at or
below -100 is excluded from the valid set, and when every entry is a
fault value the derived soil temperature equals the payload's own air
temperature (a real number, not NaN), which is also what the airTemp
field is set to. -/
theorem c5_fault_entries_excluded (st : Dash) (data : JVal) (d s w : List ℚ) (t : ℚ)
    (hd : seriesNums (jGet data "ds18b20".data) = some d)
    (hs : seriesNums (jGet data "soil".data) = some s)
    (hw : seriesNums (jGet data "water".data) = some w)
    (ht : jGet2 data "bme".data "t".data = some (JVal.jnum t)) :
    (∀ x ∈ d, x ≤ -100 → x ∉ validSoilTemps d) ∧
    ((∀ x ∈ d, x ≤ -100) →
      (handleStm32Json st data).1.sensors.soilTemp = some t) ∧
    (handleStm32Json st data).1.sensors.airTemp = some t := by
  refine ⟨?_, fun hall => ?_, ?_⟩
  · intro x _ hx hmem
    rcases (List.mem_filter.mp hmem) with ⟨_, hgt⟩
    have : x > -100 := by
      simpa [decide_eq_true_iff] using hgt
    linarith
  · have hempty : validSoilTemps d = [] := by
      apply List.filter_eq_nil_iff.mpr
      intro a ha
      have : a ≤ -100 := hall a ha
      simp only [decide_eq_true_iff]
      intro hgt
      linarith
    unfold handleStm32Json
    rw [hd, hs, hw]
    simp [avgSoilTemp, hempty, jNumOf, ht]
  · unfold handleStm32Json
    rw [hd, hs, hw]
    simp [jNumOf, ht]

/-- All-fault nested payload used to instantiate the C5 theorem. -/
def c5wData : JVal :=
  JVal.jobj
    [("bme".data, JVal.jobj [("t".data, JVal.jnum 25), ("p".data, JVal.jnum 997),
        ("h".data, JVal.jnum 57)]),
     ("ds18b20".data, JVal.jarr [JVal.jnum (-127), JVal.jnum (-127)]),
     ("soil".data, JVal.jarr []),
     ("water".data, JVal.jarr [])]

theorem c5_fault_entries_excluded_witness :
    ((-127 : ℚ) ∉ validSoilTemps [-127, -127]) ∧
    (handleStm32Json dash0 c5wData).1.sensors.soilTemp = some 25 := by
  have h := c5_fault_entries_excluded dash0 c5wData [-127, -127] [] [] 25
    rfl rfl rfl rfl
  exact ⟨h.1 (-127) (by decide) (by decide), h.2.1 (by decide)⟩

/-! ### Which outcomes each matcher can produce -/

theorem handleStm32Json_snd (st : Dash) (d : JVal) :
    (handleStm32Json st d).2 = Outcome.jsonNested ∨
    (handleStm32Json st d).2 = Outcome.caughtError := by
  unfold handleStm32Json
  split <;> simp

theorem handleLegacyJson_snd (st : Dash) (d : JVal) :
    (handleLegacyJson st d).2 = Outcome.jsonLegacy ∨
    (handleLegacyJson st d).2 = Outcome.caughtError := by
  unfold handleLegacyJson
  split <;> simp

theorem jsonBranch_snd (st : Dash) (d : JVal) :
    (jsonBranch st d).2 = Outcome.jsonNested ∨
    (jsonBranch st d).2 = Outcome.jsonLegacy ∨
    (jsonBranch st d).2 = Outcome.jsonSimple ∨
    (jsonBranch st d).2 = Outcome.jsonNoVariant ∨
    (jsonBranch st d).2 = Outcome.caughtError := by
  unfold jsonBranch
  split_ifs
  · rcases handleStm32Json_snd st d with h | h <;> simp [h]
  · rcases handleLegacyJson_snd st d with h | h <;> simp [h]
  · simp [handleSimpleJson]
  · simp

theorem handleStm32Simple_snd (st : Dash) (p : List Char) :
    (handleStm32Simple st p).2 = Outcome.stm32Simple ∨
    (handleStm32Simple st p).2 = Outcome.stm32SimpleNoGuard := by
  unfold handleStm32Simple
  dsimp only
  split <;> simp

theorem handleUltraShort_snd (st : Dash) (p : List Char) :
    (handleUltraShort st p).2 = Outcome.ultraShort ∨
    (handleUltraShort st p).2 = Outcome.ultraShortNoGuard := by
  unfold handleUltraShort
  dsimp only
  split <;> simp

theorem handleBme280_snd (st : Dash) (p : List Char) :
    (handleBme280 st p).2 = Outcome.bme280 ∨
    (handleBme280 st p).2 = Outcome.bme280NoGuard := by
  unfold handleBme280
  dsimp only
  split
  · simp
  · split <;> simp

theorem handleComprehensive_snd (st : Dash) (p : List Char) :
    (handleComprehensive st p).2 = Outcome.comprehensive ∨
    (handleComprehensive st p).2 = Outcome.comprehensiveNoGuard := by
  unfold handleComprehensive
  dsimp only
  split <;> simp

theorem handleCompact_snd (st : Dash) (p : List Char) :
    (handleCompact st p).2 = Outcome.compact ∨
    (handleCompact st p).2 = Outcome.compactNoGuard := by
  unfold handleCompact
  dsimp only
  split <;> simp

theorem handleStatus_snd (st : Dash) (p : List Char) :
    (handleStatus st p).2 = Outcome.statusMsg ∨
    (handleStatus st p).2 = Outcome.statusNoGuard := by
  unfold handleStatus
  dsimp only
  split
  · split <;> simp
  · simp

/-- If the chain reports the status branch fired, the payload reached the
status matcher (every earlier matcher declined) and both its captures
exist. -/
theorem chain_status_inv (st : Dash) (p : List Char)
    (h : (telemetryChain st p).2 = Outcome.statusMsg) :
    telemetryChain st p = handleStatus st p ∧
    (findWordCapture "status=".data p).isSome = true ∧
    (findCapture "uptime=".data p).isSome = true := by
  unfold telemetryChain at h ⊢
  split_ifs at h ⊢
  case _ =>
    exfalso
    revert h
    split
    · rename_i d _
      rcases jsonBranch_snd st d with h1 | h1 | h1 | h1 | h1 <;> simp [h1]
    · simp
  case _ =>
    exact absurd h (by rcases handleStm32Simple_snd st p with h1 | h1 <;> simp [h1])
  case _ =>
    exact absurd h (by rcases handleUltraShort_snd st p with h1 | h1 <;> simp [h1])
  case _ =>
    exact absurd h (by rcases handleBme280_snd st p with h1 | h1 <;> simp [h1])
  case _ =>
    exact absurd h (by rcases handleComprehensive_snd st p with h1 | h1 <;> simp [h1])
  case _ =>
    exact absurd h (by rcases handleCompact_snd st p with h1 | h1 <;> simp [h1])
  case _ =>
    refine ⟨rfl, ?_⟩
    unfold handleStatus at h
    revert h
    dsimp only
    split
    · rename_i hg
      intro _
      simpa using hg
    · simp

/-- C3 (counterexample): with the structured-JSON tag `stm32-json`
already set, a status-only message (`status=`/`uptime=` format) DOES
change the tag, downgrading it to `stm32-status` — the guard only
protects `stm32-comprehensive` and `stm32-compact`. -/
theorem c3_counterexample :
    (onMessage { dash0 with dataSource := "stm32-json" } "d02/telemetry"
        "status=online,uptime=145").1.dataSource = "stm32-status" ∧
    "stm32-status" ≠ "stm32-json" ∧
    (onMessage { dash0 with dataSource := "stm32-json" } "d02/telemetry"
        "status=online,uptime=145").2 = Outcome.statusMsg := by
  set_option maxRecDepth 40000 in decide

/-- C3 (amended): a test-topic message never changes a tag other than
`unknown`/`awaiting-mqtt`; a status-only message leaves the whole state
unchanged when the current tag is `stm32-comprehensive` or
`stm32-compact`; but from any other tag (including the structured-JSON
tag) a status-only message rewrites the tag to `stm32-status`, touching
nothing else. -/
theorem c3_amended_tag_guard :
    (∀ (st : Dash) (s : String), st.dataSource ≠ "unknown" →
      st.dataSource ≠ "awaiting-mqtt" → (onMessage st "test" s).1 = st) ∧
    (∀ (st : Dash) (p : List Char), (telemetryChain st p).2 = Outcome.statusMsg →
      (st.dataSource = "stm32-comprehensive" ∨ st.dataSource = "stm32-compact") →
      (telemetryChain st p).1 = st) ∧
    (∀ (st : Dash) (p : List Char), (telemetryChain st p).2 = Outcome.statusMsg →
      st.dataSource ≠ "stm32-comprehensive" → st.dataSource ≠ "stm32-compact" →
      (telemetryChain st p).1 = { st with dataSource := "stm32-status" }) := by
  refine ⟨fun st s h1 h2 => ?_, fun st p h hin => ?_, fun st p h h1 h2 => ?_⟩
  · have he : onMessage st "test" s = testTopicBranch st := rfl
    rw [he]
    unfold testTopicBranch
    simp [h1, h2]
  · obtain ⟨he, hs, hu⟩ := chain_status_inv st p h
    rw [he]
    unfold handleStatus
    dsimp only
    rw [if_pos (by simp [hs, hu])]
    rcases hin with hin | hin <;> simp [hin]
  · obtain ⟨he, hs, hu⟩ := chain_status_inv st p h
    rw [he]
    unfold handleStatus
    dsimp only
    rw [if_pos (by simp [hs, hu])]
    simp [h1, h2]

theorem c3_amended_tag_guard_witness :
    (onMessage { dash0 with dataSource := "stm32-json" } "test" "STM32_OK").1 =
      { dash0 with dataSource := "stm32-json" } ∧
    (telemetryChain { dash0 with dataSource := "stm32-comprehensive" }
        "status=online,uptime=145".data).1 =
      { dash0 with dataSource := "stm32-comprehensive" } ∧
    (telemetryChain { dash0 with dataSource := "mqtt-json-legacy" }
        "status=online,uptime=145".data).1 =
      { dash0 with dataSource := "stm32-status" } := by
  refine ⟨c3_amended_tag_guard.1 _ _ (by decide) (by decide),
    c3_amended_tag_guard.2.1 _ _ ?_ (Or.inl rfl),
    c3_amended_tag_guard.2.2 _ _ ?_ (by decide) (by decide)⟩ <;>
    set_option maxRecDepth 40000 in decide

/-- A truncated legacy flat-JSON payload: only `bme_t` present. -/
def c6payload : String := "\x7b\"bme_t\":25\x7d"

/-- C6 (counterexample): a syntactically-broken (truncated) instance of
the legacy flat JSON format is decoded, not rejected, and DOES corrupt
previously-held state: the missing `bme_p` field is not omitted — the
stored pressure (previously 825) becomes undefined, and the soil-humidity
mean over the three missing `soil0..2` fields becomes NaN (both modelled
as `none`). -/
theorem c6_counterexample :
    dash0.sensors.pressure = some 825 ∧
    dash0.sensors.soilHumidity = some 70 ∧
    (onMessage dash0 "d02/telemetry" c6payload).2 = Outcome.jsonLegacy ∧
    (onMessage dash0 "d02/telemetry" c6payload).1.sensors.pressure = none ∧
    (onMessage dash0 "d02/telemetry" c6payload).1.sensors.soilHumidity = none := by
  set_option maxRecDepth 40000 in decide

/-- C6 (amended): a payload that starts like JSON but fails to parse is
contained — the handler ends in its catch branch with the state
unchanged; and in the simple six-scalar JSON shape a field that is absent
is omitted from the update and its previous value is retained.  (The
nested and legacy flat JSON shapes do not retain: see the
counterexample.) -/
theorem c6_amended_error_containment :
    (∀ (st : Dash) (s : String), startsWithBrace s.data = true →
      jsonParse s.data = none →
      onMessage st "d02/telemetry" s = (st, Outcome.caughtError)) ∧
    (∀ (st : Dash) (data : JVal),
      (jTruthy (jGet data "bme".data) && (jGet2 data "bme".data "t".data).isSome) = false →
      jTruthy (jGet data "bme_t".data) = false →
      (jIsNum (jGet data "pressure".data) && jIsNum (jGet data "soilTemp".data)) = true →
      jsonBranch st data = handleSimpleJson st data ∧
      (jGet data "soilHumidity".data = none →
        (jsonBranch st data).1.sensors.soilHumidity = st.sensors.soilHumidity) ∧
      (jGet data "waterLevel".data = none →
        (jsonBranch st data).1.sensors.waterLevel = st.sensors.waterLevel) ∧
      (jGet data "airTemp".data = none →
        (jsonBranch st data).1.sensors.airTemp = st.sensors.airTemp) ∧
      (jGet data "airHumidity".data = none →
        (jsonBranch st data).1.sensors.airHumidity = st.sensors.airHumidity)) := by
  constructor
  · intro st s hb hp
    have he : onMessage st "d02/telemetry" s = telemetryChain st s.data := rfl
    rw [he]
    unfold telemetryChain
    simp [hb, hp]
  · intro st data hA hB hC
    have he : jsonBranch st data = handleSimpleJson st data := by
      unfold jsonBranch
      simp [hA, hB, hC]
    refine ⟨he, ?_, ?_, ?_, ?_⟩ <;> intro habs <;> rw [he] <;>
      unfold handleSimpleJson <;> simp [habs, nullishNum]

/-- A well-formed but partial simple-shape object. -/
def c6wData : JVal :=
  JVal.jobj [("pressure".data, JVal.jnum 900), ("soilTemp".data, JVal.jnum 21)]

theorem c6_amended_error_containment_witness :
    onMessage dash0 "d02/telemetry" "\x7bbroken" = (dash0, Outcome.caughtError) ∧
    (jsonBranch dash0 c6wData).1.sensors.soilHumidity = some 70 ∧
    (jsonBranch dash0 c6wData).1.sensors.airHumidity = some 65 := by
  refine ⟨c6_amended_error_containment.1 dash0 "\x7bbroken" rfl rfl, ?_, ?_⟩
  · exact ((c6_amended_error_containment.2 dash0 c6wData rfl rfl rfl).2.1 rfl).trans rfl
  · exact ((c6_amended_error_containment.2 dash0 c6wData rfl rfl rfl).2.2.2.2 rfl).trans rfl

/-- C7 (counterexample): a command name outside the fixed vocabulary is
NOT rejected before a network attempt — with a live broker session,
`controlPump('foobar')` publishes `FOOBAR` on the command topic (and logs
an audit row with pump type `unknown`); no invalid-command result is ever
produced on this path. -/
theorem c7_counterexample :
    (controlPumpSync { clientExists := true, connected := true }
        { irrigation := false, suction := false } "foobar").2.mqttPayload =
      some "FOOBAR" ∧
    (controlPumpSync { clientExists := true, connected := true }
        { irrigation := false, suction := false } "foobar").2.dbPumpType =
      "unknown" ∧
    apiPumpValid "foobar" = false := by
  refine ⟨by decide, by decide, by decide⟩

/-- C7 (amended): the broker publish path performs no vocabulary check —
whenever the client exists and is connected, any command name whatsoever
is forwarded uppercased to the device, and the HTTP relay is not used;
only the HTTP relay path (taken when the broker session is unavailable)
rejects a command whose uppercased form is outside
START/STOP/POMPA/SEDOT with an explicit invalid-command result before
contacting the broker. -/
theorem c7_amended_no_broker_validation :
    (∀ (conn : MqttConn) (p : Pumps) (ty : String),
      conn.clientExists = true → conn.connected = true →
      (controlPumpSync conn p ty).2.mqttPayload = some (upper ty) ∧
      (controlPumpSync conn p ty).2.usedApiFallback = false) ∧
    (∀ (cmd : String) (d : Nat), apiPumpValid cmd = false →
      apiPumpRoute cmd d = ApiPumpResult.invalidCommand) := by
  constructor
  · intro conn p ty h1 h2
    unfold controlPumpSync publishPumpControl
    simp [h1, h2]
  · intro cmd d h
    unfold apiPumpRoute
    simp [h]

theorem c7_amended_no_broker_validation_witness :
    (controlPumpSync { clientExists := true, connected := true }
        { irrigation := false, suction := false } "launch-the-confetti").2.mqttPayload =
      some "LAUNCH-THE-CONFETTI" ∧
    apiPumpRoute "launch-the-confetti" 0 = ApiPumpResult.invalidCommand := by
  refine ⟨((c7_amended_no_broker_validation.1
      { clientExists := true, connected := true }
      { irrigation := false, suction := false }
      "launch-the-confetti" rfl rfl).1).trans (by decide),
    c7_amended_no_broker_validation.2 "launch-the-confetti" 0 (by decide)⟩

/-- C8: issuing the stop command synchronously forces both local pump
booleans to `false`, for every connection state — whether the broker
publish happens (client connected) or not. -/
theorem c8_stop_forces_both_pumps_off (conn : MqttConn) (p : Pumps) :
    (controlPumpSync conn p "stop").1 = { irrigation := false, suction := false } := by
  unfold controlPumpSync
  simp

/-- C9: in the three non-JSON compact formats (`STM32_DATA_` prefixed
positional, ultra-short positional, and `st=`/`at=` comma key=value), a
field whose captured digits parse to 0 is treated exactly like an absent
field — the previous stored value is kept (shown here for the water-level
channel of each format, and in general for the shared
`parseInt(x) || prev` embedding `intOrPrev`); consequently these formats
can never overwrite a non-zero stored value with zero. -/
theorem c9_zero_parse_keeps_previous :
    (∀ (d : List Char) (prev : Option ℚ), digitsVal d = 0 →
      intOrPrev (some d) prev = prev) ∧
    (∀ (cap : Option (List Char)) (prev : Option ℚ), prev ≠ some 0 →
      intOrPrev cap prev ≠ some 0) ∧
    (∀ (st : Dash) (p d : List Char),
      (findCapture "P".data (removeFirst "STM32_DATA_".data p)).isSome = true →
      (findCapture "ST".data (removeFirst "STM32_DATA_".data p)).isSome = true →
      findCapture "WL".data (removeFirst "STM32_DATA_".data p) = some d →
      digitsVal d = 0 →
      (handleStm32Simple st p).1.sensors.waterLevel = st.sensors.waterLevel) ∧
    (∀ (st : Dash) (p d : List Char),
      (findCapture "P".data p).isSome = true →
      (findCapture "T".data p).isSome = true →
      findCapture "W".data p = some d →
      digitsVal d = 0 →
      (handleUltraShort st p).1.sensors.waterLevel = st.sensors.waterLevel) ∧
    (∀ (st : Dash) (p d : List Char),
      (findCapture "st=".data p).isSome = true →
      (findCapture "at=".data p).isSome = true →
      (findCapture "p=".data p).isSome = true →
      findCapture "wl=".data p = some d →
      digitsVal d = 0 →
      (handleComprehensive st p).1.sensors.waterLevel = st.sensors.waterLevel) := by
  refine ⟨fun d prev h0 => ?_, fun cap prev hne => ?_,
    fun st p d hP hST hWL h0 => ?_, fun st p d hP hT hW h0 => ?_,
    fun st p d hst hat hp hwl h0 => ?_⟩
  · simp [intOrPrev, h0]
  · match cap with
    | none => simpa [intOrPrev] using hne
    | some d =>
      by_cases h0 : digitsVal d = 0
      · simpa [intOrPrev, h0] using hne
      · simp [intOrPrev, h0]
  · unfold handleStm32Simple
    dsimp only
    rw [if_pos (by simp [hP, hST])]
    simp [setScalars, hWL, intOrPrev, h0]
  · unfold handleUltraShort
    dsimp only
    rw [if_pos (by simp [hP, hT])]
    simp [setScalars, hW, intOrPrev, h0]
  · unfold handleComprehensive
    dsimp only
    rw [if_pos (by simp [hst, hat, hp])]
    simp [setScalars, hwl, intOrPrev, h0]

theorem c9_zero_parse_keeps_previous_witness :
    (handleStm32Simple dash0 "STM32_DATA_P701_ST21_WL0".data).1.sensors.waterLevel =
      some 10 ∧
    (handleUltraShort dash0 "P701T21H52W0A26H62".data).1.sensors.waterLevel =
      some 10 ∧
    (handleComprehensive dash0 "st=25,at=27,p=825,wl=0".data).1.sensors.waterLevel =
      some 10 ∧
    intOrPrev (some ['0']) (some 10) = some 10 ∧
    intOrPrev (some ['0']) (some 7) ≠ some 0 := by
  refine ⟨?_, ?_, ?_, ?_, ?_⟩
  · exact (c9_zero_parse_keeps_previous.2.2.1 dash0 _ ['0']
      (by decide) (by decide) (by decide) (by decide)).trans rfl
  · exact (c9_zero_parse_keeps_previous.2.2.2.1 dash0 _ ['0']
      (by decide) (by decide) (by decide) (by decide)).trans rfl
  · exact (c9_zero_parse_keeps_previous.2.2.2.2 dash0 _ ['0']
      (by decide) (by decide) (by decide) (by decide) (by decide)).trans rfl
  · exact c9_zero_parse_keeps_previous.1 ['0'] (some 10) (by decide)
  · exact c9_zero_parse_keeps_previous.2.1 (some ['0']) (some 7) (by decide)

/-- If the chain reports the unknown-data-format branch fired, the
payload did not start with a brace (and nothing changed). -/
theorem chain_unknown_inv (st : Dash) (p : List Char)
    (h : (telemetryChain st p).2 = Outcome.unknownFormat) :
    startsWithBrace p = false ∧ telemetryChain st p = (st, Outcome.unknownFormat) := by
  unfold telemetryChain at h ⊢
  split_ifs at h ⊢ with hA hB hC hD hE hF hG
  case _ =>
    exfalso
    revert h
    split
    · rename_i d _
      rcases jsonBranch_snd st d with h1 | h1 | h1 | h1 | h1 <;> simp [h1]
    · simp
  case _ =>
    exact absurd h (by rcases handleStm32Simple_snd st p with h1 | h1 <;> simp [h1])
  case _ =>
    exact absurd h (by rcases handleUltraShort_snd st p with h1 | h1 <;> simp [h1])
  case _ =>
    exact absurd h (by rcases handleBme280_snd st p with h1 | h1 <;> simp [h1])
  case _ =>
    exact absurd h (by rcases handleComprehensive_snd st p with h1 | h1 <;> simp [h1])
  case _ =>
    exact absurd h (by rcases handleCompact_snd st p with h1 | h1 <;> simp [h1])
  case _ =>
    exact absurd h (by rcases handleStatus_snd st p with h1 | h1 <;> simp [h1])
  case _ =>
    exact ⟨by simpa using hA, rfl⟩

/-- A JSON-object payload matching none of the three sub-variants, which
on the `d02/status` topic nevertheless changes pump state. -/
def c10payload : String := "\x7b\"m\":\"pump_irrigation=ON\"\x7d"

/-- The value `JSON.parse` produces for `c10payload`. -/
def c10data : JVal :=
  JVal.jobj [("m".data, JVal.jstr "pump_irrigation=ON".data)]

/-- C10 (counterexample): on a handled topic (`d02/status`), a payload
that begins with a brace and parses as a JSON object matching none of the
three JSON sub-variants does NOT leave everything unchanged: the
pump-status branch runs first and switches the irrigation pump on. -/
theorem c10_counterexample :
    jsonParse c10payload.data = some c10data ∧
    startsWithBrace c10payload.data = true ∧
    jTruthy (jGet c10data "bme".data) = false ∧
    jTruthy (jGet c10data "bme_t".data) = false ∧
    jIsNum (jGet c10data "pressure".data) = false ∧
    dash0.pumps.irrigation = false ∧
    (onMessage dash0 "d02/status" c10payload).1.pumps.irrigation = true := by
  exact ⟨rfl, rfl, rfl, rfl, rfl, rfl, by decide⟩

/-- C10 (amended): on the telemetry topic, a payload that begins with a
brace and parses as a JSON object matching none of the three sub-variants
(no truthy `bme` with a `t`, no truthy `bme_t`, no numeric
`pressure`+`soilTemp` pair) changes nothing — the handler returns the
state untouched under the no-variant outcome; and the
unknown-data-format branch is reachable only for payloads that do not
begin with a brace, with the state likewise untouched. -/
theorem c10_amended_json_no_variant :
    (∀ (st : Dash) (s : String) (data : JVal),
      jsonParse s.data = some data →
      startsWithBrace s.data = true →
      (jTruthy (jGet data "bme".data) && (jGet2 data "bme".data "t".data).isSome) = false →
      jTruthy (jGet data "bme_t".data) = false →
      (jIsNum (jGet data "pressure".data) && jIsNum (jGet data "soilTemp".data)) = false →
      onMessage st "d02/telemetry" s = (st, Outcome.jsonNoVariant)) ∧
    (∀ (st : Dash) (p : List Char),
      (telemetryChain st p).2 = Outcome.unknownFormat →
      startsWithBrace p = false ∧ telemetryChain st p = (st, Outcome.unknownFormat)) := by
  constructor
  · intro st s data hparse hb hA hB hC
    have he : onMessage st "d02/telemetry" s = telemetryChain st s.data := rfl
    rw [he]
    unfold telemetryChain
    rw [if_pos hb, hparse]
    unfold jsonBranch
    simp [hA, hB, hC]
  · intro st p h
    exact chain_unknown_inv st p h

theorem c10_amended_json_no_variant_witness :
    onMessage dash0 "d02/telemetry" "\x7b\"a\":1\x7d" = (dash0, Outcome.jsonNoVariant) ∧
    startsWithBrace "hello".data = false := by
  refine ⟨c10_amended_json_no_variant.1 dash0 "\x7b\"a\":1\x7d"
      (JVal.jobj [("a".data, JVal.jnum 1)]) rfl rfl rfl rfl rfl,
    (c10_amended_json_no_variant.2 dash0 "hello".data (by decide)).1⟩
